import Mathlib

/-!
Shallow embedding of the golaunch BLE client (launch.go, buttplug.go) and
proofs about its command encoder, write pipeline, connection state machine,
discovery filter and teardown logic.
-/

namespace golaunch

/-! ### Constants (src/launch.go lines 13-59) -/

/-- Bluetooth device name of the Launch (src/launch.go line 15). -/
def pName : String := "Launch"

/-- Minimum amount of time between write operations, in milliseconds
(src/launch.go line 49: threshold = 100ms). -/
def threshold : Nat := 100

/-- Amount of write events to buffer before blocking (src/launch.go line 51). -/
def writeBufferSize : Nat := 10

/-! ### Command encoder (src/launch.go lines 214-231, src/buttplug.go lines 152-168)

`launch.Move` clamps position to [0,99] and speed to [20,99] and enqueues the
two-byte command.  The clamping (the spec's `Encode`) is embedded here as the
pure function the clamped pair is computed by; the clamped values fit in a
byte unchanged. -/

/-- Embedding of the clamping performed by `launch.Move` and
`buttplugLaunch.Move`: clamp position to [0,99] and speed to [20,99],
mirroring the two if/else-if chains of the source. -/
def Move (position speed : Int) : Int × Int :=
  let position := if position < 0 then 0 else if position > 99 then 99 else position
  let speed := if speed < 20 then 20 else if speed > 99 then 99 else speed
  (position, speed)

/-! ### Write pipeline (src/launch.go lines 193-210, src/buttplug.go lines 134-148)

`launch.writeFromBuffer` loops over a select on the stop channel and the
FIFO write-buffer channel `wbuffer`; on a dequeued command it first receives
from `l.limiter` (a shared `time.Tick(threshold)` rate-limit clock created
once in `NewLaunch`) and then writes the command to the command
characteristic.  The embedding drives the loop with an explicit event trace:
a `stop b` event is a receive on the stop channel, a `submit c` event is
`Move` enqueueing on the FIFO buffer, and a `write` event dequeues the
oldest buffered command, consumes the next limiter tick (tick k of the
shared clock fires `threshold * (k+1)` ms after creation) and records the
transmission stamped with the consumed tick.  The buffer capacity
(`writeBufferSize`) only bounds when `Move` blocks; it does not affect
ordering and is not modelled. -/

/-- A motion command as stored in the write buffer: the clamped
(position, speed) pair produced by `Move` (two bytes on the wire). -/
abbrev Cmd := Int × Int

/-- State threaded through the transmission loop: the FIFO buffer contents
(head is oldest), the index of the next unconsumed tick of the shared
rate-limit clock, and the transmissions so far, each stamped with the tick
it consumed. -/
structure PipelineState where
  wbuffer : List Cmd
  tick : Nat
  sent : List (Nat × Cmd)
deriving DecidableEq

/-- An event observed by the transmission loop's select: a value received on
the stop channel, a command enqueued by `Move`, or a dequeue of the oldest
buffered command. -/
inductive LoopEvent where
  | stop (b : Bool) : LoopEvent
  | submit (c : Cmd) : LoopEvent
  | write : LoopEvent
deriving DecidableEq

/-- Embedding of `launch.writeFromBuffer` driven by an event trace: on
`stop true` the loop returns (remaining events never affect the state); on
`stop false` it loops; on a dequeue it consumes the next limiter tick and
performs the characteristic write, recorded in `sent`. -/
def writeFromBuffer : List LoopEvent → PipelineState → PipelineState
  | [], s => s
  | .stop b :: es, s => if b then s else writeFromBuffer es s
  | .submit c :: es, s => writeFromBuffer es { s with wbuffer := s.wbuffer ++ [c] }
  | .write :: es, s =>
    match s.wbuffer with
    | [] => writeFromBuffer es s
    | c :: rest =>
      writeFromBuffer es { wbuffer := rest, tick := s.tick + 1, sent := s.sent ++ [(s.tick, c)] }

/-- Time in milliseconds, measured from clock creation, at which tick `k` of
the shared rate-limit clock `time.Tick(threshold)` fires. -/
def tickTime (k : Nat) : Nat := threshold * (k + 1)

/-- The commands submitted by `Move` during an event trace, in submission
order. -/
def submitsOf : List LoopEvent → List Cmd
  | [] => []
  | .submit c :: es => c :: submitsOf es
  | .stop _ :: es => submitsOf es
  | .write :: es => submitsOf es

/-- Concrete event trace used to witness the pipeline theorems. -/
def demoEvents : List LoopEvent :=
  [.submit (10, 20), .submit (30, 40), .write, .write, .stop true]

/-- Concrete initial pipeline state used to witness the pipeline theorems. -/
def demoInit : PipelineState := { wbuffer := [], tick := 0, sent := [] }

/-- Concrete pipeline state, one command still buffered, used for the
shutdown counterexample. -/
def c6State : PipelineState := { wbuffer := [(10, 30)], tick := 0, sent := [] }

/-! ### Connection state machine (src/launch.go lines 107-169)

`launch.Connect` opens a new gatt device, registers the discovery /
connected / disconnected handlers, spawns a goroutine that initializes the
device (which starts scanning) and waits for both characteristics to be
discovered, and then selects between setup completion and a 10 s timeout.
The nondeterministic outcomes of the environment (device open succeeding,
setup finishing before the deadline, the mode write succeeding) are an
explicit `ConnectEnv`; the observable resources (stored peripheral, live
transport connection, number of transmission loops started, number of gatt
devices opened, whether the discovery attempt from this call is still in
force) are a `LaunchState`. -/

/-- Abstract identity of a discovered Bluetooth peripheral. -/
abbrev Peripheral := Nat

/-- Observable state of a `launch` client. -/
structure LaunchState where
  p : Option Peripheral
  connected : Bool
  writeLoops : Nat
  devicesOpened : Nat
  discoveryActive : Bool
deriving DecidableEq

/-- Environment of one `Connect` call: whether `gatt.NewDevice` succeeds,
whether discovery and characteristic setup complete before the 10 s
connection timeout, whether the mode write succeeds, and which peripheral
is discovered. -/
structure ConnectEnv where
  newDeviceOk : Bool
  setupCompletes : Bool
  modeWriteOk : Bool
  peripheral : Peripheral
deriving DecidableEq

/-- Result of a `Connect` call: success, the `gatt.NewDevice` error,
`ErrConnectionTimeout`, or `ErrInit`. -/
inductive ConnectResult where
  | ok : ConnectResult
  | errNewDevice : ConnectResult
  | errTimeout : ConnectResult
  | errInit : ConnectResult
deriving DecidableEq

/-- Embedding of `launch.Connect` (src/launch.go lines 109-160).  The
timeout branch only unlocks the mutex and returns `ErrConnectionTimeout`:
the handlers stay registered and the scan keeps running, so
`discoveryActive` remains true.  The `ErrInit` branch only returns the
error: the peripheral stays stored and the transport connection stays live.
There is no already-connected check anywhere: every call opens a fresh gatt
device and, on success, starts another `writeFromBuffer` loop. -/
def Connect (l : LaunchState) (e : ConnectEnv) : ConnectResult × LaunchState :=
  if !e.newDeviceOk then (.errNewDevice, l)
  else
    let l1 : LaunchState :=
      { l with devicesOpened := l.devicesOpened + 1, discoveryActive := true }
    if e.setupCompletes then
      let l2 : LaunchState :=
        { l1 with p := some e.peripheral, connected := true, discoveryActive := false }
      if e.modeWriteOk then
        (.ok, { l2 with writeLoops := l2.writeLoops + 1 })
      else
        (.errInit, l2)
    else
      (.errTimeout, l1)

/-- The discovery attempt completing after `Connect` has already returned:
nothing unregisters the handlers on the timeout path, so a later
`onPeripheralDiscovered` / `onConnected` still stores the peripheral and
establishes a live transport connection. -/
def backgroundDiscovery (l : LaunchState) (per : Peripheral) : LaunchState :=
  if l.discoveryActive then
    { l with p := some per, connected := true, discoveryActive := false }
  else l

/-- Embedding of `launch.Disconnect` (src/launch.go lines 163-169): when a
peripheral is stored and its `Device()` is non-nil, `CancelConnection` is
called (the returned flag); otherwise nothing happens.  `Disconnect`
itself never touches the client state and never invokes the disconnect
callback (that only happens in `onDisconnected`, which the transport fires
after a `CancelConnection` on a live connection). -/
def Disconnect (l : LaunchState) (dev : Option Unit) : LaunchState × Bool :=
  match l.p with
  | none => (l, false)
  | some _ =>
    match dev with
    | none => (l, false)
    | some _ => (l, true)

/-- Concrete freshly created client state (`NewLaunch`). -/
def idleState : LaunchState :=
  { p := none, connected := false, writeLoops := 0, devicesOpened := 0,
    discoveryActive := false }

/-- Concrete client state after one successful `Connect`. -/
def connectedState : LaunchState :=
  { p := some 1, connected := true, writeLoops := 1, devicesOpened := 1,
    discoveryActive := false }

/-- Concrete environment in which setup does not complete in time. -/
def timeoutEnv : ConnectEnv :=
  { newDeviceOk := true, setupCompletes := false, modeWriteOk := true, peripheral := 7 }

/-- Concrete environment in which discovery succeeds but the mode write
fails. -/
def initFailEnv : ConnectEnv :=
  { newDeviceOk := true, setupCompletes := true, modeWriteOk := false, peripheral := 7 }

/-- Concrete environment in which every step succeeds. -/
def goodEnv : ConnectEnv :=
  { newDeviceOk := true, setupCompletes := true, modeWriteOk := true, peripheral := 2 }

/-! ### Buttplug client connection (src/buttplug.go lines 44-130)

`buttplugLaunch.Connect` reuses the client when it is still connected,
returns success immediately when the device is still connected, and
otherwise scans, picks the first device named "Fleshlight Launch"
supporting the Launch command, and spawns the disconnect monitor and the
transmission loop. -/

/-- Observable state of a `buttplugLaunch` client. -/
structure ButtplugState where
  client : Option Nat
  clientDisconnected : Bool
  device : Option Nat
  deviceDisconnected : Bool
  writeLoops : Nat
deriving DecidableEq

/-- Outcome of `WaitOnScanning` under its 30 s timeout. -/
inductive BPWait where
  | ok : BPWait
  | deadline : BPWait
  | failed : BPWait
deriving DecidableEq

/-- Environment of one `buttplugLaunch.Connect` call. -/
structure BPEnv where
  newClientOk : Bool
  clientId : Nat
  startScanOk : Bool
  waitResult : BPWait
  stopScanOk : Bool
  foundDevice : Option Nat
deriving DecidableEq

/-- Result of a `buttplugLaunch.Connect` call. -/
inductive BPResult where
  | ok : BPResult
  | errClient : BPResult
  | errStartScan : BPResult
  | errWait : BPResult
  | errStopScan : BPResult
  | errDiscover : BPResult
deriving DecidableEq

/-- Embedding of `buttplugLaunch.connect` (src/buttplug.go lines 45-60):
reuse a still-connected client, otherwise create a new one. -/
def bpConnectClient (l : ButtplugState) (e : BPEnv) : Option ButtplugState :=
  if l.client.isSome && !l.clientDisconnected then some l
  else if e.newClientOk then
    some { l with client := some e.clientId, clientDisconnected := false }
  else none

/-- Device-selection step of `buttplugLaunch.Connect` (src/buttplug.go lines
92-121): pick the matching device from the scan results; on success store it
and start the disconnect monitor and a transmission loop. -/
def bpAfterScan (l : ButtplugState) (e : BPEnv) : BPResult × ButtplugState :=
  match e.foundDevice with
  | none => (.errDiscover, l)
  | some d =>
    (.ok, { l with device := some d, deviceDisconnected := false,
                   writeLoops := l.writeLoops + 1 })

/-- Embedding of `buttplugLaunch.Connect` (src/buttplug.go lines 64-122).
When the stored device is still connected the call returns nil immediately
without scanning and without starting a second loop. -/
def bpConnect (l : ButtplugState) (e : BPEnv) : BPResult × ButtplugState :=
  match bpConnectClient l e with
  | none => (.errClient, l)
  | some l1 =>
    if l1.device.isSome && !l1.deviceDisconnected then (.ok, l1)
    else if !e.startScanOk then (.errStartScan, l1)
    else
      match e.waitResult with
      | .failed => (.errWait, l1)
      | .deadline =>
        if !e.stopScanOk then (.errStopScan, l1) else bpAfterScan l1 e
      | .ok => bpAfterScan l1 e

/-- Embedding of `buttplugLaunch.Disconnect` (src/buttplug.go lines
125-130): a non-blocking send on the unbuffered disconnect channel, which
is delivered only when the monitor goroutine of an active Session is
listening; otherwise the select hits the default branch and nothing
happens. -/
def bpDisconnect (l : ButtplugState) (monitorListening : Bool) : ButtplugState × Bool :=
  if monitorListening then (l, true) else (l, false)

/-- Concrete buttplug client state with a live client and device. -/
def bpConnectedState : ButtplugState :=
  { client := some 1, clientDisconnected := false, device := some 4,
    deviceDisconnected := false, writeLoops := 1 }

/-- Concrete buttplug environment used by witnesses. -/
def bpEnv0 : BPEnv :=
  { newClientOk := true, clientId := 1, startScanOk := true, waitResult := .ok,
    stopScanOk := true, foundDevice := some 4 }

/-! ### Session teardown (src/launch.go lines 289-303, src/buttplug.go lines 102-119)

`launch.onDisconnected` does a non-blocking send of the stop signal (it does
not wait for the transmission loop to exit), stops the gatt device, sleeps
2 s and invokes the registered callback; it never clears `l.p`, `l.cmd` or
`l.mode`.  The buttplug monitor goroutine instead performs a blocking send
on the unbuffered stop channel — completing only when the loop has received
it and is about to return — then clears `l.device` and invokes the
callback. -/

/-- Observable state of one Session teardown. -/
structure TeardownState where
  stopSignalQueued : Bool
  loopStopped : Bool
  sessionCleared : Bool
  deviceStopped : Bool
  callbackInvocations : Nat
deriving DecidableEq

/-- Embedding of `launch.onDisconnected` (src/launch.go lines 289-303): the
stop signal is queued without waiting for the loop, the device is stopped,
and after a 2 s sleep the registered callback (if any) is invoked; the
Session references are never cleared and the loop is not awaited. -/
def launchOnDisconnected (s : TeardownState) (hasCallback : Bool) : TeardownState :=
  let s1 := { s with stopSignalQueued := true, deviceStopped := true }
  if hasCallback then { s1 with callbackInvocations := s1.callbackInvocations + 1 } else s1

/-- Embedding of the buttplug disconnect monitor body (src/buttplug.go lines
104-119): the blocking send on the unbuffered stop channel completes exactly
when the loop receives it and returns, then the device reference is cleared
and the registered callback (if any) is invoked. -/
def bpMonitorTeardown (s : TeardownState) (hasCallback : Bool) : TeardownState :=
  let s1 := { s with stopSignalQueued := true, loopStopped := true }
  let s2 := { s1 with sessionCleared := true }
  if hasCallback then { s2 with callbackInvocations := s2.callbackInvocations + 1 } else s2

/-- Concrete teardown state of a live Session before any disconnect
trigger. -/
def teardown0 : TeardownState :=
  { stopSignalQueued := false, loopStopped := false, sessionCleared := false,
    deviceStopped := false, callbackInvocations := 0 }

/-! ### Peripheral discovery filter (src/launch.go lines 306-314) -/

/-- Observable state of the scan phase. -/
structure DiscoverState where
  p : Option Peripheral
  scanning : Bool
  connectRequested : Bool
deriving DecidableEq

/-- Embedding of `launch.onPeripheralDiscovered` (src/launch.go lines
306-314): when the advertised local name equals `pName` (Go string
equality, hence case-sensitive), store the peripheral, stop scanning and
request the transport connection; otherwise do nothing. -/
def onPeripheralDiscovered (l : DiscoverState) (per : Peripheral) (localName : String) :
    DiscoverState :=
  if localName = pName then
    { l with p := some per, scanning := false, connectRequested := true }
  else l

/-- Modelled from the spec's words, for comparison with the source's
equality test: "advertised name matches the known device name
(case-insensitive exact match)". -/
def specCaseInsensitiveMatch (a b : String) : Prop :=
  a.data.map Char.toLower = b.data.map Char.toLower

/-- Concrete scan-phase state before any peripheral is found. -/
def ds0 : DiscoverState :=
  { p := none, scanning := true, connectRequested := false }

end golaunch

namespace golaunch

/-! ### Claim C1 and C9 theorems -/

/-- C1: for every pair of integer inputs, `Move`'s encoding produces a
position in [0,99] and a speed in [20,99] (purity is inherent in the
embedding: `Move` is a function of its two arguments only), and on the three
spec inputs it yields exactly the spec outputs. -/
theorem move_encode_bounds :
    (∀ position speed : Int,
      0 ≤ (Move position speed).1 ∧ (Move position speed).1 ≤ 99 ∧
      20 ≤ (Move position speed).2 ∧ (Move position speed).2 ≤ 99) ∧
    Move (-10) 5 = (0, 20) ∧ Move 150 150 = (99, 99) ∧ Move 50 50 = (50, 50) := by
  refine ⟨fun position speed => ?_, by decide, by decide, by decide⟩
  unfold Move
  dsimp only
  refine ⟨?_, ?_, ?_, ?_⟩ <;> split_ifs <;> omega

/-- C9: the encoding is idempotent: applying `Move` to an already clamped
pair returns it unchanged, so `Move (Move p s) = Move p s`; determinism and
absence of side effects are inherent in the embedding as a pure function. -/
theorem move_encode_idempotent :
    ∀ position speed : Int,
      Move (Move position speed).1 (Move position speed).2 = Move position speed := by
  intro position speed
  unfold Move
  simp only [Prod.mk.injEq]
  constructor <;> split_ifs <;> omega

/-! ### Pipeline lemmas and claim C2, C6 theorems -/

/-- Helper: the transmitted commands followed by the remaining buffer extend
the initial transmitted commands and buffer by (a prefix of) the submitted
commands, in order. -/
theorem writeFromBuffer_trace (es : List LoopEvent) (s : PipelineState) :
    ∃ t, (writeFromBuffer es s).sent.map Prod.snd ++ ((writeFromBuffer es s).wbuffer ++ t) =
      s.sent.map Prod.snd ++ (s.wbuffer ++ submitsOf es) := by
  induction es generalizing s with
  | nil => exact ⟨[], by simp [writeFromBuffer, submitsOf]⟩
  | cons e es ih =>
    cases e with
    | stop b =>
      by_cases hb : b
      · subst hb
        exact ⟨submitsOf (LoopEvent.stop true :: es), by simp [writeFromBuffer, submitsOf]⟩
      · simp only [writeFromBuffer, if_neg hb, submitsOf]
        exact ih s
    | submit c =>
      obtain ⟨t, ht⟩ := ih { s with wbuffer := s.wbuffer ++ [c] }
      refine ⟨t, ?_⟩
      simp only [writeFromBuffer, submitsOf]
      rw [ht]
      simp
    | write =>
      cases hbuf : s.wbuffer with
      | nil =>
        obtain ⟨t, ht⟩ := ih s
        refine ⟨t, ?_⟩
        simp only [writeFromBuffer, hbuf] at ht ⊢
        rw [ht]
        simp [submitsOf]
      | cons c rest =>
        obtain ⟨t, ht⟩ :=
          ih { wbuffer := rest, tick := s.tick + 1, sent := s.sent ++ [(s.tick, c)] }
        refine ⟨t, ?_⟩
        simp only [writeFromBuffer, hbuf] at ht ⊢
        rw [ht]
        simp [submitsOf]

/-- Helper: the loop consumes ticks of the shared rate-limit clock in
strictly increasing order, so the tick stamps of the transmission log form a
strictly increasing chain. -/
theorem writeFromBuffer_ticks (es : List LoopEvent) (s : PipelineState)
    (hub : ∀ x ∈ s.sent, x.1 < s.tick)
    (hch : List.Chain' (fun x y : Nat × Cmd => x.1 < y.1) s.sent) :
    List.Chain' (fun x y : Nat × Cmd => x.1 < y.1) (writeFromBuffer es s).sent := by
  induction es generalizing s with
  | nil => exact hch
  | cons e es ih =>
    cases e with
    | stop b =>
      by_cases hb : b
      · subst hb
        exact hch
      · simp only [writeFromBuffer, if_neg hb]
        exact ih s hub hch
    | submit c =>
      exact ih { s with wbuffer := s.wbuffer ++ [c] } hub hch
    | write =>
      cases hbuf : s.wbuffer with
      | nil =>
        simp only [writeFromBuffer, hbuf]
        exact ih s hub hch
      | cons c rest =>
        simp only [writeFromBuffer, hbuf]
        refine ih _ ?_ ?_
        · intro x hx
          simp only [List.mem_append, List.mem_singleton] at hx
          rcases hx with hx | hx
          · exact Nat.lt_succ_of_lt (hub x hx)
          · simp [hx]
        · rw [List.chain'_append]
          refine ⟨hch, List.chain'_singleton _, ?_⟩
          intro x hx y hy
          simp only [List.head?_cons, Option.mem_def, Option.some.injEq] at hy
          subst hy
          exact hub x (List.mem_of_mem_getLast? hx)

/-- C2: starting from an empty transmission log and empty buffer, for every
event trace the transmitted commands are a prefix of the submitted commands
in submission order (FIFO, no reordering or coalescing), and consecutive
transmissions consume ticks of the single shared rate-limit clock whose
firing times are at least `threshold` (100 ms) apart. -/
theorem writeFromBuffer_fifo_spacing (es : List LoopEvent) (s : PipelineState)
    (hsent : s.sent = []) (hbuf : s.wbuffer = []) :
    (∃ t, (writeFromBuffer es s).sent.map Prod.snd ++ t = submitsOf es) ∧
    List.Chain' (fun x y : Nat × Cmd => tickTime x.1 + threshold ≤ tickTime y.1)
      (writeFromBuffer es s).sent := by
  constructor
  · obtain ⟨t, ht⟩ := writeFromBuffer_trace es s
    rw [hsent, hbuf] at ht
    simp only [List.map_nil, List.nil_append] at ht
    exact ⟨(writeFromBuffer es s).wbuffer ++ t, ht⟩
  · have h := writeFromBuffer_ticks es s (by simp [hsent]) (by simp [hsent])
    refine List.Chain'.imp ?_ h
    intro x y hxy
    simp only [tickTime, threshold]
    omega

/-- Witness for C2 at the concrete trace `demoEvents` from the empty state. -/
theorem writeFromBuffer_fifo_spacing_witness :
    demoInit.sent = [] ∧ demoInit.wbuffer = [] ∧
    ((∃ t, (writeFromBuffer demoEvents demoInit).sent.map Prod.snd ++ t =
        submitsOf demoEvents) ∧
      List.Chain' (fun x y : Nat × Cmd => tickTime x.1 + threshold ≤ tickTime y.1)
        (writeFromBuffer demoEvents demoInit).sent) :=
  ⟨rfl, rfl, writeFromBuffer_fifo_spacing demoEvents demoInit rfl rfl⟩

/-- C6 counterexample: with command (10, 30) still buffered, the loop
receives a stop signal and performs no further transmissions, but the
command is not discarded: it remains in the buffer (`NewLaunch` creates
`wbuffer` once and nothing clears it), and the next Session's transmission
loop, started by a later `Connect` on the same buffer, transmits it. -/
theorem buffer_retained_after_stop_cex :
    (writeFromBuffer [.stop true] c6State).sent = [] ∧
    (writeFromBuffer [.stop true] c6State).wbuffer = [(10, 30)] ∧
    ((writeFromBuffer [.write]
      { writeFromBuffer [.stop true] c6State with sent := [] }).sent.map Prod.snd)
      = [(10, 30)] := by
  refine ⟨rfl, rfl, rfl⟩

/-- C6 amended: after the transmission loop receives a stop signal it
performs no further transmissions and leaves the state untouched; however a
command still buffered at shutdown is retained, and the next Session's loop
transmits it on its first dequeue after a reconnect. -/
theorem stop_halts_loop_buffer_retained (es : List LoopEvent) (s : PipelineState)
    (c : Cmd) (rest : List Cmd) (hbuf : s.wbuffer = c :: rest) :
    writeFromBuffer (.stop true :: es) s = s ∧
    (writeFromBuffer [.write] { s with sent := [] }).sent = [(s.tick, c)] := by
  constructor
  · simp [writeFromBuffer]
  · simp [writeFromBuffer, hbuf]

/-- Witness for the amended C6 at the concrete state `c6State`. -/
theorem stop_halts_loop_buffer_retained_witness :
    c6State.wbuffer = [(10, 30)] ∧
    (writeFromBuffer [.stop true] c6State = c6State ∧
      (writeFromBuffer [.write] { c6State with sent := [] }).sent = [(c6State.tick, (10, 30))]) :=
  ⟨rfl, stop_halts_loop_buffer_retained [] c6State (10, 30) [] rfl⟩

/-! ### Claim C3, C4, C5 theorems -/

/-- C3 counterexample: from a fresh client, a `Connect` whose deadline
elapses before setup completes returns `ErrConnectionTimeout` but does not
cancel the in-flight discovery attempt (the handlers and scan stay active),
and the still-running discovery can subsequently establish a live transport
connection, contradicting the claim that no live transport connection
remains. -/
theorem connect_timeout_no_cancel_cex :
    (Connect idleState timeoutEnv).1 = .errTimeout ∧
    ¬ (Connect idleState timeoutEnv).2.discoveryActive = false ∧
    (backgroundDiscovery (Connect idleState timeoutEnv).2 7).connected = true := by
  decide

/-- C3 amended: a `Connect` whose deadline elapses before setup completes
returns `ErrConnectionTimeout`, but performs no cancellation: the discovery
attempt stays in force, no extra transmission loop is started, and a later
completion of the discovery leaves a live transport connection. -/
theorem connect_timeout_behavior (l : LaunchState) (e : ConnectEnv) (per : Peripheral)
    (h1 : e.newDeviceOk = true) (h2 : e.setupCompletes = false) :
    (Connect l e).1 = .errTimeout ∧
    (Connect l e).2.discoveryActive = true ∧
    (Connect l e).2.writeLoops = l.writeLoops ∧
    (backgroundDiscovery (Connect l e).2 per).connected = true := by
  simp [Connect, backgroundDiscovery, h1, h2]

/-- Witness for the amended C3 at the fresh client state and the concrete
timeout environment. -/
theorem connect_timeout_behavior_witness :
    timeoutEnv.newDeviceOk = true ∧ timeoutEnv.setupCompletes = false ∧
    ((Connect idleState timeoutEnv).1 = .errTimeout ∧
      (Connect idleState timeoutEnv).2.discoveryActive = true ∧
      (Connect idleState timeoutEnv).2.writeLoops = idleState.writeLoops ∧
      (backgroundDiscovery (Connect idleState timeoutEnv).2 7).connected = true) :=
  ⟨rfl, rfl, connect_timeout_behavior idleState timeoutEnv 7 rfl rfl⟩

/-- C4 counterexample: discovery succeeds but the mode write fails; the call
returns `ErrInit` while the transport connection is still live and the
Session (the stored peripheral) is not cleared, contradicting the claimed
cancellation and cleanup. -/
theorem connect_init_error_keeps_connection_cex :
    (Connect idleState initFailEnv).1 = .errInit ∧
    ¬ ((Connect idleState initFailEnv).2.connected = false ∧
        (Connect idleState initFailEnv).2.p = none) := by
  decide

/-- C4 amended: when discovery succeeds and the mode write fails, `Connect`
returns `ErrInit` without starting a transmission loop, but it neither
cancels the transport connection nor clears the Session: the connection
stays live and the peripheral stays stored. -/
theorem connect_init_error_behavior (l : LaunchState) (e : ConnectEnv)
    (h1 : e.newDeviceOk = true) (h2 : e.setupCompletes = true) (h3 : e.modeWriteOk = false) :
    (Connect l e).1 = .errInit ∧
    (Connect l e).2.connected = true ∧
    (Connect l e).2.p = some e.peripheral ∧
    (Connect l e).2.writeLoops = l.writeLoops := by
  simp [Connect, h1, h2, h3]

/-- Witness for the amended C4 at the fresh client state and the concrete
failing-initialization environment. -/
theorem connect_init_error_behavior_witness :
    initFailEnv.newDeviceOk = true ∧ initFailEnv.setupCompletes = true ∧
    initFailEnv.modeWriteOk = false ∧
    ((Connect idleState initFailEnv).1 = .errInit ∧
      (Connect idleState initFailEnv).2.connected = true ∧
      (Connect idleState initFailEnv).2.p = some initFailEnv.peripheral ∧
      (Connect idleState initFailEnv).2.writeLoops = idleState.writeLoops) :=
  ⟨rfl, rfl, rfl, connect_init_error_behavior idleState initFailEnv rfl rfl rfl⟩

/-- C5 counterexample: calling `launch.Connect` while already Connected is
not a no-op: with every environment step succeeding it opens a second gatt
device and starts a second transmission loop. -/
theorem connect_reentrancy_cex :
    (Connect connectedState goodEnv).2.writeLoops = 2 ∧
    (Connect connectedState goodEnv).2.devicesOpened = 2 := by
  decide

/-- C5 amended: only the buttplug client treats `Connect` while connected as
a no-op returning success immediately with the state (hence the single
Session and single loop) unchanged; the BLE client performs a full new
connection attempt, opening another gatt device and starting an additional
transmission loop. -/
theorem connect_reentrancy_behavior (bl : ButtplugState) (e : BPEnv)
    (l : LaunchState) (le : ConnectEnv)
    (h1 : bl.client.isSome = true) (h2 : bl.clientDisconnected = false)
    (h3 : bl.device.isSome = true) (h4 : bl.deviceDisconnected = false)
    (h5 : le.newDeviceOk = true) (h6 : le.setupCompletes = true)
    (h7 : le.modeWriteOk = true) :
    bpConnect bl e = (.ok, bl) ∧
    (Connect l le).1 = .ok ∧
    (Connect l le).2.writeLoops = l.writeLoops + 1 ∧
    (Connect l le).2.devicesOpened = l.devicesOpened + 1 := by
  refine ⟨?_, ?_⟩
  · simp [bpConnect, bpConnectClient, h1, h2, h3, h4]
  · simp [Connect, h5, h6, h7]

/-- Witness for the amended C5 at concrete connected states and successful
environments. -/
theorem connect_reentrancy_behavior_witness :
    bpConnectedState.client.isSome = true ∧ bpConnectedState.clientDisconnected = false ∧
    bpConnectedState.device.isSome = true ∧ bpConnectedState.deviceDisconnected = false ∧
    goodEnv.newDeviceOk = true ∧ goodEnv.setupCompletes = true ∧ goodEnv.modeWriteOk = true ∧
    (bpConnect bpConnectedState bpEnv0 = (.ok, bpConnectedState) ∧
      (Connect connectedState goodEnv).1 = .ok ∧
      (Connect connectedState goodEnv).2.writeLoops = connectedState.writeLoops + 1 ∧
      (Connect connectedState goodEnv).2.devicesOpened = connectedState.devicesOpened + 1) :=
  ⟨rfl, rfl, rfl, rfl, rfl, rfl, rfl,
    connect_reentrancy_behavior bpConnectedState bpEnv0 connectedState goodEnv
      rfl rfl rfl rfl rfl rfl rfl⟩

/-! ### Claim C7 theorems -/

/-- C7 counterexample: `launch.onDisconnected` on a live Session invokes the
registered callback, but at (and after) that invocation the transmission
loop has not been shut down (only a stop signal was queued, the loop was
never awaited) and the Session references were never cleared, contradicting
the claimed happens-after ordering. -/
theorem callback_order_cex :
    (launchOnDisconnected teardown0 true).callbackInvocations = 1 ∧
    (launchOnDisconnected teardown0 true).loopStopped = false ∧
    (launchOnDisconnected teardown0 true).sessionCleared = false := by
  decide

/-- C7 amended: one teardown run invokes the registered callback exactly
once for either client; the buttplug monitor invokes it only after the
transmission loop has received the stop signal and the device reference has
been cleared, while the BLE client's `onDisconnected` merely queues the stop
signal (leaving the loop's shutdown unordered with the invocation) and never
clears the Session references. -/
theorem teardown_callback_behavior (s : TeardownState) (h : s.callbackInvocations = 0) :
    (launchOnDisconnected s true).callbackInvocations = 1 ∧
    (launchOnDisconnected s true).stopSignalQueued = true ∧
    (launchOnDisconnected s true).loopStopped = s.loopStopped ∧
    (launchOnDisconnected s true).sessionCleared = s.sessionCleared ∧
    (bpMonitorTeardown s true).callbackInvocations = 1 ∧
    (bpMonitorTeardown s true).loopStopped = true ∧
    (bpMonitorTeardown s true).sessionCleared = true := by
  simp [launchOnDisconnected, bpMonitorTeardown, h]

/-- Witness for the amended C7 at the concrete live-Session teardown
state. -/
theorem teardown_callback_behavior_witness :
    teardown0.callbackInvocations = 0 ∧
    ((launchOnDisconnected teardown0 true).callbackInvocations = 1 ∧
      (launchOnDisconnected teardown0 true).stopSignalQueued = true ∧
      (launchOnDisconnected teardown0 true).loopStopped = teardown0.loopStopped ∧
      (launchOnDisconnected teardown0 true).sessionCleared = teardown0.sessionCleared ∧
      (bpMonitorTeardown teardown0 true).callbackInvocations = 1 ∧
      (bpMonitorTeardown teardown0 true).loopStopped = true ∧
      (bpMonitorTeardown teardown0 true).sessionCleared = true) :=
  ⟨rfl, teardown_callback_behavior teardown0 rfl⟩

/-! ### Claim C8 theorems -/

/-- C8 counterexample: the advertised name "LAUNCH" matches the device name
"Launch" under the spec's case-insensitive comparison, yet the discovery
handler does not select the peripheral: the scan state is unchanged and no
connection is requested, so the selection criterion is not case-insensitive
matching. -/
theorem discovery_case_sensitive_cex :
    specCaseInsensitiveMatch "LAUNCH" pName ∧
    onPeripheralDiscovered ds0 5 "LAUNCH" = ds0 ∧
    ds0.connectRequested = false := by
  refine ⟨?_, by decide, rfl⟩
  unfold specCaseInsensitiveMatch pName
  decide

/-- C8 amended: a scanned peripheral is selected if and only if its
advertised local name equals "Launch" under Go's case-sensitive string
equality; on a match the peripheral is stored, scanning stops and the
transport connection is requested. -/
theorem discovery_selects_iff (l : DiscoverState) (per : Peripheral) (nm : String)
    (h : l.connectRequested = false) :
    ((onPeripheralDiscovered l per nm).connectRequested = true ↔ nm = pName) ∧
    (nm = pName →
      (onPeripheralDiscovered l per nm).p = some per ∧
      (onPeripheralDiscovered l per nm).scanning = false) := by
  unfold onPeripheralDiscovered
  by_cases hnm : nm = pName <;> simp [hnm, h]

/-- Witness for the amended C8 at the concrete scan state and the exact
device name. -/
theorem discovery_selects_iff_witness :
    ds0.connectRequested = false ∧
    (((onPeripheralDiscovered ds0 5 "Launch").connectRequested = true ↔ "Launch" = pName) ∧
      ("Launch" = pName →
        (onPeripheralDiscovered ds0 5 "Launch").p = some 5 ∧
        (onPeripheralDiscovered ds0 5 "Launch").scanning = false)) :=
  ⟨rfl, discovery_selects_iff ds0 5 "Launch" rfl⟩

/-! ### Claim C10 theorem -/

/-- C10: `Disconnect` on a client that never connected (no peripheral
stored) is a no-op: whatever `Device()` would return, no `CancelConnection`
call is made and the state is unchanged — and since no transport disconnect
event is produced, `onDisconnected` never runs, so the disconnect callback
is not invoked; the nil checks in the source are the matches the embedding
is total over, so no panic occurs.  Likewise the buttplug client's
`Disconnect` with no monitor goroutine listening (none exists before the
first successful `Connect`) drops the signal and changes nothing. -/
theorem disconnect_never_connected (l : LaunchState) (hp : l.p = none)
    (dev : Option Unit) (bl : ButtplugState) :
    Disconnect l dev = (l, false) ∧ bpDisconnect bl false = (bl, false) := by
  constructor
  · unfold Disconnect
    rw [hp]
  · rfl

/-- Witness for C10 at the fresh client states. -/
theorem disconnect_never_connected_witness :
    idleState.p = none ∧
    (Disconnect idleState none = (idleState, false) ∧
      bpDisconnect bpConnectedState false = (bpConnectedState, false)) :=
  ⟨rfl, disconnect_never_connected idleState rfl none bpConnectedState⟩

end golaunch
